import Mathlib

/-!
Verification of the DDNS client script (src/src/utils/client-script.py).

The script is a single sequential loop: detect the public IP via
`GET {SERVER_URL}/api/ip`, push it via `POST {SERVER_URL}/api/dns/update`,
sleep, repeat.  We embed the script shallowly:

* The network is an oracle `resp : Nat → UrlOpenResult` giving the outcome
  of the i-th `urlopen` call made by one `make_request` invocation
  (a normal response, an `HTTPError`, or a `URLError`).  Each `make_request`
  call site receives its own oracle.
* `json.loads` is a parameter `parse : String → Option Json`
  (`some` = decoded value, `none` = `JSONDecodeError`).
* Python exceptions become the `ClientError` structure; `raise` becomes
  `Except.error`.  Log output (`print` via `log`) is an explicit list of
  `(level, message)` pairs returned alongside the result.
* Wall-clock timestamps are not modelled; log messages that embed a
  clock reading keep only their fixed prefix.
-/

namespace DDNS

/-- Decoded JSON values, the result type of `json.loads`. -/
inductive Json where
  | null : Json
  | bool : Bool → Json
  | num : Int → Json
  | str : String → Json
  | arr : List Json → Json
  | obj : List (String × Json) → Json
deriving Repr

/-- Python truthiness of a decoded JSON value
(`None`/`False`/`0`/`""`/`[]`/`{}` are falsy). -/
def Json.truthy : Json → Bool
  | .null => false
  | .bool b => b
  | .num n => n != 0
  | .str s => !s.isEmpty
  | .arr xs => !xs.isEmpty
  | .obj kvs => !kvs.isEmpty

/-- Python `==` between a decoded JSON value and a string literal:
true exactly when the value is that string. -/
def Json.eqStr : Json → String → Bool
  | .str t, s => t == s
  | _, _ => false

/-- A single-quote character, for rendering Python `repr`/`str` output. -/
def sq : String := String.singleton (Char.ofNat 39)

/-- A left brace character (Python dict repr). -/
def lb : String := String.singleton (Char.ofNat 123)

/-- A right brace character (Python dict repr). -/
def rb : String := String.singleton (Char.ofNat 125)

mutual

/-- Python `repr` of a decoded JSON value (used inside container renderings). -/
def Json.pyRepr : Json → String
  | .null => "None"
  | .bool true => "True"
  | .bool false => "False"
  | .num n => toString n
  | .str s => sq ++ s ++ sq
  | .arr xs => "[" ++ Json.pyReprList xs ++ "]"
  | .obj kvs => lb ++ Json.pyReprPairs kvs ++ rb

/-- `repr` of list elements, comma separated. -/
def Json.pyReprList : List Json → String
  | [] => ""
  | [x] => Json.pyRepr x
  | x :: xs => Json.pyRepr x ++ ", " ++ Json.pyReprList xs

/-- `repr` of dict entries, comma separated. -/
def Json.pyReprPairs : List (String × Json) → String
  | [] => ""
  | [(k, v)] => sq ++ k ++ sq ++ ": " ++ Json.pyRepr v
  | (k, v) :: kvs => sq ++ k ++ sq ++ ": " ++ Json.pyRepr v ++ ", " ++ Json.pyReprPairs kvs

end

/-- Python `str` of a decoded JSON value, as interpolated into f-strings. -/
def Json.pyStr : Json → String
  | .str s => s
  | j => Json.pyRepr j

/-- The dict stored on an `HTTPError` as `e.response` by `make_request`
(lines 110-114): status code, decoded error body, response headers. -/
structure ErrResponse where
  status : Nat
  data : Json
  headers : List (String × String)

/-- A raised Python exception as observed by the callers in this script:
`msg` is `str(error)`; `causeResponse` is the `response` dict reachable via
`__cause__` when the error was raised `from` an `HTTPError` (lines 110-116);
`response` is a direct `.response` attribute on the raised exception itself.
The script only ever sets `.response` on the underlying `HTTPError`, never on
the `Exception` it raises, so `response` is `none` for every error the script
propagates (which is why `log_error`'s second branch never fires). -/
structure ClientError where
  msg : String
  causeResponse : Option ErrResponse
  response : Option ErrResponse

/-- `raise Exception("Too many redirects")` (line 76). -/
def too_many_redirects_error : ClientError := ⟨"Too many redirects", none, none⟩

/-- `raise Exception(f"Request failed: {str(e)}") from e` for a `URLError`
(line 119). -/
def transport_error (m : String) : ClientError :=
  ⟨"Request failed: " ++ m, none, none⟩

/-- A log line: (level, message), as produced by `log(level, message)`.
The `[HH:MM:SS]` timestamp prefix is wall-clock and not modelled. -/
abbrev LogEntry := String × String

/-- `log_error(context, error)` (lines 28-36): always logs
`"{context}: {str(error)}"`; additionally logs the server response when the
error object itself carries a truthy `.response` attribute.  The `DEBUG`
traceback branch requires a `.traceback` attribute that no exception in this
script has, so it is omitted. -/
def log_error (context : String) (e : ClientError) : List LogEntry :=
  ("ERROR", context ++ ": " ++ e.msg) ::
    (match e.response with
     | some r =>
        [("ERROR", "Server response: " ++ lb ++ sq ++ "status" ++ sq ++ ": " ++
          toString r.status ++ ", " ++ sq ++ "data" ++ sq ++ ": " ++ r.data.pyRepr ++
          ", " ++ sq ++ "headers" ++ sq ++ ": ..." ++ rb)]
     | none => [])

/-- Outcome of one `urlopen(req)` call: a normal response
(status, headers, body text), an `HTTPError` (status code, headers, and the
result of `e.read().decode()`, `none` when that read itself raises), or a
`URLError` with its message. -/
inductive UrlOpenResult where
  | ok : Nat → List (String × String) → String → UrlOpenResult
  | httpError : Nat → List (String × String) → Option String → UrlOpenResult
  | urlError : String → UrlOpenResult

/-- Header lookup (`'Location' in response.headers` / `headers['Location']`);
header names are taken as already normalized. -/
def header_get (hdrs : List (String × String)) (k : String) : Option String :=
  (hdrs.find? (fun p => p.1 == k)).map (fun p => p.2)

/-- Whether a character is stripped by Python's `str.strip()`
(the ASCII whitespace characters; full Unicode whitespace is not modelled). -/
def is_py_space (c : Char) : Bool :=
  c == ' ' || c == '\t' || c == '\n' || c == '\r' ||
    c == Char.ofNat 11 || c == Char.ofNat 12

/-- Truthiness test `response_data.strip()` of the source (lines 86, 100):
`true` when the body is blank, i.e. `strip()` leaves the empty string. -/
def strip_is_empty (s : String) : Bool :=
  s.data.all is_py_space

/-- Body decoding of a non-redirect success response (lines 82-92):
if the text is non-blank, try JSON; on decode failure wrap the raw text as
`{"data": text}`; a blank body yields `{}`. -/
def decode_body (parse : String → Option Json) (s : String) : Json :=
  if strip_is_empty s then Json.obj []
  else
    match parse s with
    | some j => j
    | none => Json.obj [("data", Json.str s)]

/-- Error-body decoding for an `HTTPError` (lines 98-108): same rules as
`decode_body`, defaulting to `{}` when reading the body itself raised. -/
def decode_error_body (parse : String → Option Json) : Option String → Json
  | none => Json.obj []
  | some s => decode_body parse s

/-- The exception raised for an `HTTPError` (lines 94-116):
message `"Request failed with status {code}"`, raised `from` the `HTTPError`
that now carries the `response` dict (status, decoded error body, headers). -/
def http_status_error (parse : String → Option Json) (code : Nat)
    (hdrs : List (String × String)) (readResult : Option String) : ClientError :=
  ⟨"Request failed with status " ++ toString code,
   some ⟨code, decode_error_body parse readResult, hdrs⟩, none⟩

/-- Whether a `urlopen` outcome takes the redirect branch (line 74):
a normal response with `300 <= status < 400` and a `Location` header. -/
def isRedirectResp : UrlOpenResult → Bool
  | .ok status hdrs _ =>
      decide (300 ≤ status) && decide (status < 400) && (header_get hdrs "Location").isSome
  | _ => false

/-- The `while True` loop of `make_request` (lines 54-121).  `resp i` is the
outcome of the i-th `urlopen`; `idx` the current request index;
`redirect_count` as in the source.  Returns the script's result (or raised
error) together with the total number of HTTP requests issued.  The request
construction (lines 55-68: headers dict, JSON-encoding of `data`) only shapes
the outgoing request, which the oracle `resp` abstracts; the `Location` value
becomes the next `url`. -/
def make_request_loop (parse : String → Option Json) (resp : Nat → UrlOpenResult)
    (max_redirects : Nat) (url : String) (idx redirect_count : Nat) :
    Except ClientError Json × Nat :=
  match resp idx with
  | .ok status hdrs body =>
      if decide (300 ≤ status) && decide (status < 400) &&
          (header_get hdrs "Location").isSome then
        if redirect_count ≥ max_redirects then
          (.error too_many_redirects_error, idx + 1)
        else
          make_request_loop parse resp max_redirects
            ((header_get hdrs "Location").getD "") (idx + 1) (redirect_count + 1)
      else
        (.ok (decode_body parse body), idx + 1)
  | .httpError code hdrs readResult =>
      (.error (http_status_error parse code hdrs readResult), idx + 1)
  | .urlError m =>
      (.error (transport_error m), idx + 1)
termination_by max_redirects - redirect_count
decreasing_by simp_wf; omega

/-- `make_request(url, ..., max_redirects)` (lines 38-121): run the loop with
`redirect_count = 0`.  The Python default for `max_redirects` is 5; call
sites in this script always use the default. -/
def make_request (parse : String → Option Json) (resp : Nat → UrlOpenResult)
    (url : String) (max_redirects : Nat) : Except ClientError Json × Nat :=
  make_request_loop parse resp max_redirects url 0 0

/-! ## The client functions (lines 15-18, 123-173) -/

/-- `TOKEN` (line 15): placeholder substituted when the script is served. -/
def TOKEN : String := "__TOKEN__"

/-- `SERVER_URL` (line 16). -/
def SERVER_URL : String := "__SERVER_URL__"

/-- `UPDATE_INTERVAL` (line 17): seconds between cycles. -/
def UPDATE_INTERVAL : Nat := 300

/-- `DOMAIN` (line 18). -/
def DOMAIN : String := "__DOMAIN__"

/-- Python `d.get(k, default)` on a decoded JSON value: on a dict, the value
at `k` or the default; on any non-dict it raises `AttributeError` (the exact
Python message depends on the receiver's type and is abstracted). -/
def Json.pyGetD : Json → String → Json → Except ClientError Json
  | .obj kvs, k, d => .ok (((kvs.find? (fun p => p.1 == k)).map (fun p => p.2)).getD d)
  | _, _, _ => .error ⟨"AttributeError: no attribute " ++ sq ++ "get" ++ sq, none, none⟩

/-- Python `d[k]` with a string key on a decoded JSON value: on a dict, the
value at `k` or `KeyError` (whose `str` is the quoted key); on any non-dict,
`TypeError` (exact message abstracted). -/
def Json.pySubscript : Json → String → Except ClientError Json
  | .obj kvs, k =>
      match (kvs.find? (fun p => p.1 == k)).map (fun p => p.2) with
      | some v => .ok v
      | none => .error ⟨sq ++ k ++ sq, none, none⟩
  | _, k => .error ⟨"TypeError: indices must not be " ++ sq ++ k ++ sq, none, none⟩

/-- The fixed exception `Exception("Failed to detect IP address")` re-raised
by `get_current_ip` (line 133); its content never depends on the original
error. -/
def failed_to_detect_ip_error : ClientError := ⟨"Failed to detect IP address", none, none⟩

/-- `get_current_ip()` (lines 123-133): `make_request` on
`{SERVER_URL}/api/ip` (default `max_redirects` 5), then return
`response["ip"]`.  Every exception inside the `try` — from `make_request` or
from the `["ip"]` subscript in the success log / return — is logged via
`log_error` and replaced by the fixed generic error. -/
def get_current_ip (parse : String → Option Json) (resp : Nat → UrlOpenResult) :
    Except ClientError Json × List LogEntry :=
  let l0 : List LogEntry := [("INFO", "Detecting public IP address...")]
  match (make_request parse resp (SERVER_URL ++ "/api/ip") 5).1 with
  | .error e =>
      (.error failed_to_detect_ip_error, l0 ++ log_error "Failed to detect IP address" e)
  | .ok response =>
      match response.pySubscript "ip" with
      | .error e =>
          (.error failed_to_detect_ip_error,
            l0 ++ log_error "Failed to detect IP address" e)
      | .ok ipv =>
          (.ok ipv, l0 ++ [("INFO", "Successfully detected IP: " ++ ipv.pyStr)])

/-- The success-path inspection of `update_dns` (lines 150-156): evaluates
`response.get("success")`, `response.get("result", {})` and the
short-circuit `result and result.get("status") == "unchanged"`, producing
the INFO log lines; any `.get` on a non-dict raises. -/
def update_dns_success_logs (response : Json) (ip : Json) :
    Except ClientError (List LogEntry) := do
  let succ ← response.pyGetD "success" Json.null
  if succ.truthy then
    let result ← response.pyGetD "result" (Json.obj [])
    let unchanged ←
      if result.truthy then
        (do
          let st ← result.pyGetD "status" Json.null
          pure (st.eqStr "unchanged"))
      else
        pure false
    if unchanged then
      pure [("INFO", "DNS record is already up-to-date (" ++ ip.pyStr ++ ")")]
    else
      pure [("INFO", "DNS record updated successfully to " ++ ip.pyStr)]
  else
    pure []

/-- `update_dns(ip)` (lines 135-160): POST to `{SERVER_URL}/api/dns/update`
with bearer-token headers and body `{"ip": ip}` (the request contents are
abstracted by the oracle); on success inspect the response shape for
logging and return the response unmodified; on any exception, `log_error`
then `raise error` — the identical error value, unwrapped. -/
def update_dns (parse : String → Option Json) (resp : Nat → UrlOpenResult)
    (ip : Json) : Except ClientError Json × List LogEntry :=
  let l0 : List LogEntry :=
    [("INFO", "Updating DNS record for " ++ DOMAIN ++ " to " ++ ip.pyStr ++ "...")]
  match (make_request parse resp (SERVER_URL ++ "/api/dns/update") 5).1 with
  | .error e => (.error e, l0 ++ log_error "Failed to update DNS record" e)
  | .ok response =>
      match update_dns_success_logs response ip with
      | .error e => (.error e, l0 ++ log_error "Failed to update DNS record" e)
      | .ok lgs => (.ok response, l0 ++ lgs)

/-- The log line `f"Will retry in {UPDATE_INTERVAL/60} minutes"` (line 173);
Python renders `300/60` as the float `5.0`. -/
def will_retry_log : LogEntry :=
  ("INFO", "Will retry in " ++ toString (UPDATE_INTERVAL / 60) ++ ".0 minutes")

/-- The log line `f"Next check scheduled at {next_check_time}"` (line 170),
whose suffix is a wall-clock reading and is not modelled. -/
def next_check_log : LogEntry := ("INFO", "Next check scheduled")

/-- The error, if any, that a cycle's body (lines 165-166) raises:
`get_current_ip()` then `update_dns(current_ip)`. -/
def cycle_error (parse : String → Option Json)
    (ipResp dnsResp : Nat → UrlOpenResult) : Option ClientError :=
  match (get_current_ip parse ipResp).1 with
  | .error e => some e
  | .ok ip =>
      match (update_dns parse dnsResp ip).1 with
      | .error e => some e
      | .ok _ => none

/-- `check_and_update_ip()` (lines 162-173): run the cycle body; catch every
exception, logging `"Update cycle failed: ..."` and the retry notice, and
return normally.  `ipResp`/`dnsResp` are the network oracles for the cycle's
two `make_request` calls. -/
def check_and_update_ip (parse : String → Option Json)
    (ipResp dnsResp : Nat → UrlOpenResult) :
    Except ClientError Unit × List LogEntry :=
  match get_current_ip parse ipResp with
  | (.error e, lgs1) =>
      (.ok (), lgs1 ++ [("ERROR", "Update cycle failed: " ++ e.msg), will_retry_log])
  | (.ok ip, lgs1) =>
      match update_dns parse dnsResp ip with
      | (.error e, lgs2) =>
          (.ok (),
            lgs1 ++ lgs2 ++ [("ERROR", "Update cycle failed: " ++ e.msg), will_retry_log])
      | (.ok _, lgs2) =>
          (.ok (), lgs1 ++ lgs2 ++ [next_check_log])

/-! ## The main loop and signal handling (lines 175-207) -/

/-- The inputs one loop iteration consumes: the `json.loads` behaviour and
the network oracles of the cycle's two requests. -/
structure CycleEnv where
  parse : String → Option Json
  ipResp : Nat → UrlOpenResult
  dnsResp : Nat → UrlOpenResult

/-- What drives one iteration of the process: either the timer fires and a
cycle runs against some environment, or a termination signal
(SIGINT/SIGTERM) arrives. -/
inductive LoopEvent where
  | cycle : CycleEnv → LoopEvent
  | signal : LoopEvent

/-- Observable outcome of one iteration: how long the process then sleeps
(`none` if it exits instead) and the exit code if it exits. -/
structure StepOutcome where
  slept : Option Nat
  exitCode : Option Nat

/-- One iteration of the `while True` loop (lines 194-207) viewed as a step
function.  A cycle event runs `check_and_update_ip` under the inner `try`;
whether the cycle returned normally or an exception escaped it (the outer
guard of lines 202-205 logs and continues), the process sleeps
`UPDATE_INTERVAL` seconds and loops.  A termination signal invokes
`handle_signal` (lines 175-179), which logs shutdown notices and calls
`sys.exit(0)`. -/
def main_loop_step : LoopEvent → StepOutcome
  | .cycle env =>
      match (check_and_update_ip env.parse env.ipResp env.dnsResp).1 with
      | .ok _ => ⟨some UPDATE_INTERVAL, none⟩
      | .error _ => ⟨some UPDATE_INTERVAL, none⟩
  | .signal => ⟨none, some 0⟩

/-! ## Helper lemmas about the redirect loop -/

/-- How `make_request` handles a non-redirect `urlopen` outcome. -/
def handle_response (parse : String → Option Json) : UrlOpenResult → Except ClientError Json
  | .ok _ _ body => .ok (decode_body parse body)
  | .httpError code hdrs readResult => .error (http_status_error parse code hdrs readResult)
  | .urlError m => .error (transport_error m)

theorem make_request_loop_nonredirect (parse : String → Option Json)
    (resp : Nat → UrlOpenResult) (max_redirects : Nat) (url : String)
    (idx cnt : Nat) (h : isRedirectResp (resp idx) = false) :
    make_request_loop parse resp max_redirects url idx cnt =
      (handle_response parse (resp idx), idx + 1) := by
  unfold make_request_loop
  cases hr : resp idx with
  | ok s hd b =>
      rw [hr] at h
      simp only [isRedirectResp] at h
      simp [handle_response, h]
  | httpError c hd rr => simp [handle_response]
  | urlError m => simp [handle_response]

theorem make_request_loop_redirect_step (parse : String → Option Json)
    (resp : Nat → UrlOpenResult) (max_redirects : Nat) (url : String)
    (idx cnt : Nat) (h : isRedirectResp (resp idx) = true) (hc : cnt < max_redirects) :
    ∃ loc, make_request_loop parse resp max_redirects url idx cnt =
      make_request_loop parse resp max_redirects loc (idx + 1) (cnt + 1) := by
  cases hr : resp idx with
  | ok s hd b =>
      refine ⟨(header_get hd "Location").getD "", ?_⟩
      conv_lhs => unfold make_request_loop
      rw [hr] at h ⊢
      simp only [isRedirectResp, Bool.and_eq_true, decide_eq_true_eq] at h
      obtain ⟨⟨h1, h2⟩, h3⟩ := h
      simp [h1, h2, h3, Nat.not_le.mpr hc]
  | httpError c hd rr => rw [hr] at h; simp [isRedirectResp] at h
  | urlError m => rw [hr] at h; simp [isRedirectResp] at h

theorem make_request_loop_redirect_capped (parse : String → Option Json)
    (resp : Nat → UrlOpenResult) (max_redirects : Nat) (url : String)
    (idx cnt : Nat) (h : isRedirectResp (resp idx) = true) (hc : max_redirects ≤ cnt) :
    make_request_loop parse resp max_redirects url idx cnt =
      (.error too_many_redirects_error, idx + 1) := by
  cases hr : resp idx with
  | ok s hd b =>
      conv_lhs => unfold make_request_loop
      rw [hr] at h ⊢
      simp only [isRedirectResp, Bool.and_eq_true, decide_eq_true_eq] at h
      obtain ⟨⟨h1, h2⟩, h3⟩ := h
      simp [h1, h2, h3, hc]
  | httpError c hd rr => rw [hr] at h; simp [isRedirectResp] at h
  | urlError m => rw [hr] at h; simp [isRedirectResp] at h

/-- Following a chain of `n` redirect responses consumes them all and hands
the terminal response to the non-redirect handling, provided the counter
stays under the cap. -/
theorem make_request_loop_follows (parse : String → Option Json)
    (resp : Nat → UrlOpenResult) (max_redirects : Nat) :
    ∀ n idx cnt url, (∀ i, i < n → isRedirectResp (resp (idx + i)) = true) →
      isRedirectResp (resp (idx + n)) = false → cnt + n ≤ max_redirects →
      make_request_loop parse resp max_redirects url idx cnt =
        (handle_response parse (resp (idx + n)), idx + n + 1) := by
  intro n
  induction n with
  | zero =>
      intro idx cnt url _ hterm _
      simpa using make_request_loop_nonredirect parse resp max_redirects url idx cnt
        (by simpa using hterm)
  | succ n ih =>
      intro idx cnt url h hterm hle
      have h0 : isRedirectResp (resp idx) = true := by simpa using h 0 (Nat.succ_pos n)
      obtain ⟨loc, heq⟩ :=
        make_request_loop_redirect_step parse resp max_redirects url idx cnt h0 (by omega)
      rw [heq]
      have hsh : ∀ i, i < n → isRedirectResp (resp (idx + 1 + i)) = true := by
        intro i hi
        have := h (i + 1) (by omega)
        have harr : idx + 1 + i = idx + (i + 1) := by omega
        rw [harr]
        exact this
      have hterm' : isRedirectResp (resp (idx + 1 + n)) = false := by
        have harr : idx + 1 + n = idx + (n + 1) := by omega
        rw [harr]
        exact hterm
      have := ih (idx + 1) (cnt + 1) loc hsh hterm' (by omega)
      rw [this]
      have harr : idx + 1 + n = idx + (n + 1) := by omega
      rw [harr]

/-- When every response up to the cap is a redirect, the loop raises
"Too many redirects" right after consuming the response that would exceed
the cap. -/
theorem make_request_loop_capped (parse : String → Option Json)
    (resp : Nat → UrlOpenResult) (max_redirects : Nat) :
    ∀ d idx cnt url, max_redirects - cnt = d →
      (∀ i, i ≤ d → isRedirectResp (resp (idx + i)) = true) →
      make_request_loop parse resp max_redirects url idx cnt =
        (.error too_many_redirects_error, idx + d + 1) := by
  intro d
  induction d with
  | zero =>
      intro idx cnt url hd h
      have h0 : isRedirectResp (resp idx) = true := by simpa using h 0 (Nat.le_refl 0)
      simpa using
        make_request_loop_redirect_capped parse resp max_redirects url idx cnt h0 (by omega)
  | succ d ih =>
      intro idx cnt url hd h
      have h0 : isRedirectResp (resp idx) = true := by simpa using h 0 (Nat.zero_le _)
      obtain ⟨loc, heq⟩ :=
        make_request_loop_redirect_step parse resp max_redirects url idx cnt h0 (by omega)
      rw [heq]
      have hsh : ∀ i, i ≤ d → isRedirectResp (resp (idx + 1 + i)) = true := by
        intro i hi
        have := h (i + 1) (by omega)
        have harr : idx + 1 + i = idx + (i + 1) := by omega
        rw [harr]
        exact this
      have := ih (idx + 1) (cnt + 1) loc (by omega) hsh
      rw [this]
      ring_nf

/-- The loop makes at most `max_redirects - redirect_count + 1` further
requests starting from request index `idx`. -/
theorem make_request_loop_count_le (parse : String → Option Json)
    (resp : Nat → UrlOpenResult) :
    ∀ d max_redirects idx cnt url, max_redirects - cnt ≤ d →
      (make_request_loop parse resp max_redirects url idx cnt).2 ≤ idx + d + 1 := by
  intro d
  induction d with
  | zero =>
      intro max_redirects idx cnt url hd
      by_cases hr : isRedirectResp (resp idx) = true
      · rw [make_request_loop_redirect_capped parse resp max_redirects url idx cnt hr
          (by omega)]
      · rw [make_request_loop_nonredirect parse resp max_redirects url idx cnt
          (by simpa using hr)]
  | succ d ih =>
      intro max_redirects idx cnt url hd
      by_cases hr : isRedirectResp (resp idx) = true
      · by_cases hc : cnt < max_redirects
        · obtain ⟨loc, heq⟩ :=
            make_request_loop_redirect_step parse resp max_redirects url idx cnt hr hc
          rw [heq]
          have := ih max_redirects (idx + 1) (cnt + 1) loc (by omega)
          omega
        · rw [make_request_loop_redirect_capped parse resp max_redirects url idx cnt hr
            (by omega)]
          simp
      · rw [make_request_loop_nonredirect parse resp max_redirects url idx cnt
          (by simpa using hr)]
        simp

/-! ## Claim theorems -/

/-- C2: for a chain of `N` consecutive redirect responses (3xx with a
`Location` header), `make_request` follows all `N` hops and returns the
terminal non-redirect response's decoded body when `N ≤ max_redirects`, and
raises "Too many redirects" — after consuming exactly `max_redirects + 1`
responses — when `N > max_redirects`. -/
theorem redirect_chain_bounded (parse : String → Option Json)
    (resp : Nat → UrlOpenResult) (url : String) (max_redirects N : Nat)
    (hchain : ∀ i, i < N → isRedirectResp (resp i) = true) :
    (∀ s hd b, N ≤ max_redirects → resp N = UrlOpenResult.ok s hd b →
       isRedirectResp (resp N) = false →
       make_request parse resp url max_redirects = (.ok (decode_body parse b), N + 1)) ∧
    (max_redirects < N →
       make_request parse resp url max_redirects =
         (.error too_many_redirects_error, max_redirects + 1)) := by
  constructor
  · intro s hd b hle hterm hnr
    rw [make_request]
    rw [make_request_loop_follows parse resp max_redirects N 0 0 url
      (by intro i hi; simpa using hchain i hi) (by simpa using hnr) (by omega)]
    simp [hterm, handle_response]
  · intro hgt
    rw [make_request]
    rw [make_request_loop_capped parse resp max_redirects max_redirects 0 0 url (by omega)
      (by intro i hi; simpa using hchain i (by omega))]
    simp

/-- Witness for C2: one redirect hop then a 200 is followed (5 being the
cap), and a chain of only redirects fails after the sixth response. -/
theorem redirect_chain_bounded_witness :
    make_request (fun t => if t = "done" then some (Json.str "ok") else none)
      (fun i => if i = 0 then UrlOpenResult.ok 301 [("Location", "u2")] ""
                else UrlOpenResult.ok 200 [] "done") "u" 5 = (.ok (Json.str "ok"), 2) ∧
    make_request (fun _ => none)
      (fun _ => UrlOpenResult.ok 302 [("Location", "x")] "") "u" 5 =
      (.error too_many_redirects_error, 6) := by
  constructor
  · have := (redirect_chain_bounded
        (fun t => if t = "done" then some (Json.str "ok") else none)
        (fun i => if i = 0 then UrlOpenResult.ok 301 [("Location", "u2")] ""
                  else UrlOpenResult.ok 200 [] "done") "u" 5 1
        (by intro i hi; interval_cases i; decide)).1
      200 [] "done" (by omega) rfl (by decide)
    exact this
  · have := (redirect_chain_bounded (fun _ => none)
        (fun _ => UrlOpenResult.ok 302 [("Location", "x")] "") "u" 5 6
        (by
          intro i hi
          show isRedirectResp (UrlOpenResult.ok 302 [("Location", "x")] "") = true
          decide)).2 (by omega)
    exact this

/-- C9: `make_request` is total (it is a Lean function) and issues at most
`max_redirects + 1` HTTP requests before returning a value or raising. -/
theorem make_request_terminates (parse : String → Option Json)
    (resp : Nat → UrlOpenResult) (url : String) (max_redirects : Nat) :
    (make_request parse resp url max_redirects).2 ≤ max_redirects + 1 := by
  rw [make_request]
  simpa using
    make_request_loop_count_le parse resp max_redirects max_redirects 0 0 url (by omega)

/-- C4: an `HTTPError` response makes `make_request` raise an error whose
message carries the status code and which carries (via the `raise ... from`
cause) the status, the error body decoded by the same rules as success
bodies (`{}` on a failed read), and the response headers. -/
theorem http_error_normalized (parse : String → Option Json)
    (resp : Nat → UrlOpenResult) (url : String) (max_redirects code : Nat)
    (hd : List (String × String)) (rr : Option String)
    (h : resp 0 = UrlOpenResult.httpError code hd rr) :
    make_request parse resp url max_redirects =
      (.error ⟨"Request failed with status " ++ toString code,
               some ⟨code, decode_error_body parse rr, hd⟩, none⟩, 1) := by
  rw [make_request,
    make_request_loop_nonredirect parse resp max_redirects url 0 0 (by rw [h]; rfl), h]
  rfl

/-- Witness for C4: a 500 whose body decodes to an error object. -/
theorem http_error_normalized_witness :
    make_request
      (fun t => if t = "eb" then some (Json.obj [("error", Json.str "db down")]) else none)
      (fun _ => UrlOpenResult.httpError 500 [("X", "y")] (some "eb")) "u" 5 =
      (.error ⟨"Request failed with status 500",
               some ⟨500, Json.obj [("error", Json.str "db down")], [("X", "y")]⟩, none⟩,
       1) := by
  exact http_error_normalized
    (fun t => if t = "eb" then some (Json.obj [("error", Json.str "db down")]) else none)
    (fun _ => UrlOpenResult.httpError 500 [("X", "y")] (some "eb")) "u" 5 500
    [("X", "y")] (some "eb") rfl

/-- C3 counterexample: the body `" "` is non-empty and fails JSON decoding,
yet `make_request` returns `{}`, not `{"data": " "}` — the code tests
`response_data.strip()`, so whitespace-only bodies are treated as empty. -/
theorem body_decoding_counterexample :
    make_request (fun _ => none) (fun _ => UrlOpenResult.ok 200 [] " ") "u" 5 =
      (.ok (Json.obj []), 1) ∧
    (" " : String) ≠ "" ∧
    Json.obj [] ≠ Json.obj [("data", Json.str " ")] := by
  refine ⟨?_, by decide, by simp⟩
  rw [make_request,
    make_request_loop_nonredirect (fun _ => none)
      (fun _ => UrlOpenResult.ok 200 [] " ") 5 "u" 0 0 (by decide)]
  rfl

/-- C3 (amended): on a non-redirect success response, if the body is
non-blank and is valid JSON the decoded structure is returned unchanged; if
it is non-blank and fails decoding the result is `{"data": <text>}`; if it
is blank — empty or whitespace-only — the result is `{}`. -/
theorem body_decoding (parse : String → Option Json) (resp : Nat → UrlOpenResult)
    (url : String) (max_redirects s : Nat) (hd : List (String × String)) (b : String)
    (h0 : resp 0 = UrlOpenResult.ok s hd b)
    (hnr : isRedirectResp (resp 0) = false) :
    (∀ j, strip_is_empty b = false → parse b = some j →
        make_request parse resp url max_redirects = (.ok j, 1)) ∧
    (strip_is_empty b = false → parse b = none →
        make_request parse resp url max_redirects =
          (.ok (Json.obj [("data", Json.str b)]), 1)) ∧
    (strip_is_empty b = true →
        make_request parse resp url max_redirects = (.ok (Json.obj []), 1)) := by
  have base : make_request parse resp url max_redirects =
      (.ok (decode_body parse b), 1) := by
    rw [make_request,
      make_request_loop_nonredirect parse resp max_redirects url 0 0 hnr, h0]
    rfl
  refine ⟨?_, ?_, ?_⟩
  · intro j hb hp
    rw [base]
    simp [decode_body, hb, hp]
  · intro hb hp
    rw [base]
    simp [decode_body, hb, hp]
  · intro hb
    rw [base]
    simp [decode_body, hb]

/-- Witness for C3 (amended): a valid-JSON body is returned decoded, and an
empty body yields `{}`. -/
theorem body_decoding_witness :
    make_request (fun t => if t = "[1]" then some (Json.arr [Json.num 1]) else none)
      (fun _ => UrlOpenResult.ok 200 [] "[1]") "u" 5 = (.ok (Json.arr [Json.num 1]), 1) ∧
    make_request (fun _ => none) (fun _ => UrlOpenResult.ok 200 [] "") "u" 5 =
      (.ok (Json.obj []), 1) := by
  constructor
  · exact (body_decoding (fun t => if t = "[1]" then some (Json.arr [Json.num 1]) else none)
      (fun _ => UrlOpenResult.ok 200 [] "[1]") "u" 5 200 [] "[1]" rfl (by decide)).1
      (Json.arr [Json.num 1]) (by decide) rfl
  · exact (body_decoding (fun _ => none)
      (fun _ => UrlOpenResult.ok 200 [] "") "u" 5 200 [] "" rfl (by decide)).2.2 (by decide)

/-- C5: every failure inside `get_current_ip` — any error from the request
to `{SERVER_URL}/api/ip` — is replaced by the fixed generic
"Failed to detect IP address" error, whose content does not depend on the
original error; on success the function returns the response's `"ip"`
field. -/
theorem get_current_ip_contract (parse : String → Option Json)
    (resp : Nat → UrlOpenResult) :
    (∀ e, (make_request parse resp (SERVER_URL ++ "/api/ip") 5).1 = .error e →
        (get_current_ip parse resp).1 = .error failed_to_detect_ip_error) ∧
    (∀ r v, (make_request parse resp (SERVER_URL ++ "/api/ip") 5).1 = .ok r →
        r.pySubscript "ip" = .ok v →
        (get_current_ip parse resp).1 = .ok v) := by
  constructor
  · intro e h
    simp [get_current_ip, h]
  · intro r v h hv
    simp [get_current_ip, h, hv]

/-- Witness for C5: a transport failure yields the generic error, and a
well-formed response yields its `"ip"` field. -/
theorem get_current_ip_contract_witness :
    (get_current_ip (fun _ => none) (fun _ => UrlOpenResult.urlError "boom")).1 =
      .error failed_to_detect_ip_error ∧
    (get_current_ip (fun t => if t = "ipb" then some (Json.obj [("ip", Json.str "1.2.3.4")])
        else none) (fun _ => UrlOpenResult.ok 200 [] "ipb")).1 =
      .ok (Json.str "1.2.3.4") := by
  constructor
  · exact (get_current_ip_contract (fun _ => none)
      (fun _ => UrlOpenResult.urlError "boom")).1 (transport_error "boom")
      (by rw [make_request, make_request_loop_nonredirect _ _ _ _ _ _ (by decide)]; rfl)
  · exact (get_current_ip_contract
      (fun t => if t = "ipb" then some (Json.obj [("ip", Json.str "1.2.3.4")]) else none)
      (fun _ => UrlOpenResult.ok 200 [] "ipb")).2
      (Json.obj [("ip", Json.str "1.2.3.4")]) (Json.str "1.2.3.4")
      (by rw [make_request, make_request_loop_nonredirect _ _ _ _ _ _ (by decide)]; rfl)
      rfl

/-- C10: when the HTTP request succeeds but the decoded response has no
`"ip"` field (for instance a raw-text wrapper or an empty structure), the
subscript failure is not surfaced: `get_current_ip` raises the same fixed
generic error as for transport or status failures. -/
theorem get_current_ip_missing_field (parse : String → Option Json)
    (resp : Nat → UrlOpenResult) (r : Json) (e : ClientError)
    (hr : (make_request parse resp (SERVER_URL ++ "/api/ip") 5).1 = .ok r)
    (he : r.pySubscript "ip" = .error e) :
    (get_current_ip parse resp).1 = .error failed_to_detect_ip_error := by
  simp [get_current_ip, hr, he]

/-- Witness for C10: a blank body decodes to `{}`, the `["ip"]` lookup
raises `KeyError`, and the generic error comes out. -/
theorem get_current_ip_missing_field_witness :
    (get_current_ip (fun _ => none) (fun _ => UrlOpenResult.ok 200 [] "")).1 =
      .error failed_to_detect_ip_error := by
  exact get_current_ip_missing_field (fun _ => none)
    (fun _ => UrlOpenResult.ok 200 [] "") (Json.obj []) ⟨sq ++ "ip" ++ sq, none, none⟩
    (by rw [make_request, make_request_loop_nonredirect _ _ _ _ _ _ (by decide)]; rfl)
    rfl

/-- C6: every error raised by the request helper call inside `update_dns` is
re-raised as the identical error value — not wrapped and not replaced —
after logging it with context. -/
theorem update_dns_error_propagates (parse : String → Option Json)
    (resp : Nat → UrlOpenResult) (ip : Json) (e : ClientError)
    (h : (make_request parse resp (SERVER_URL ++ "/api/dns/update") 5).1 = .error e) :
    update_dns parse resp ip =
      (.error e,
       ("INFO", "Updating DNS record for " ++ DOMAIN ++ " to " ++ ip.pyStr ++ "...") ::
         log_error "Failed to update DNS record" e) := by
  simp [update_dns, h]

/-- Witness for C6: an HTTP 500 failure propagates through `update_dns`
unchanged. -/
theorem update_dns_error_propagates_witness :
    update_dns (fun _ => none) (fun _ => UrlOpenResult.httpError 500 [] none)
      (Json.str "1.2.3.4") =
      (.error ⟨"Request failed with status 500", some ⟨500, Json.obj [], []⟩, none⟩,
       ("INFO", "Updating DNS record for " ++ DOMAIN ++ " to 1.2.3.4...") ::
         log_error "Failed to update DNS record"
           ⟨"Request failed with status 500", some ⟨500, Json.obj [], []⟩, none⟩) := by
  exact update_dns_error_propagates (fun _ => none)
    (fun _ => UrlOpenResult.httpError 500 [] none) (Json.str "1.2.3.4")
    ⟨"Request failed with status 500", some ⟨500, Json.obj [], []⟩, none⟩
    (by rw [make_request, make_request_loop_nonredirect _ _ _ _ _ _ (by decide)]; rfl)

/-- C7: on a successful update response, `update_dns` returns the response
unmodified; with `success: true` and result status `"unchanged"` it logs
that the record is already up-to-date, and with `success: true` and any
other result status it logs that the record was updated successfully. -/
theorem update_dns_success_shapes (parse : String → Option Json)
    (resp : Nat → UrlOpenResult) (ip : Json) (r : Json)
    (h : (make_request parse resp (SERVER_URL ++ "/api/dns/update") 5).1 = .ok r) :
    (r = Json.obj [("success", Json.bool true),
        ("result", Json.obj [("status", Json.str "unchanged")])] →
      update_dns parse resp ip =
        (.ok r,
         [("INFO", "Updating DNS record for " ++ DOMAIN ++ " to " ++ ip.pyStr ++ "..."),
          ("INFO", "DNS record is already up-to-date (" ++ ip.pyStr ++ ")")])) ∧
    (∀ st, st ≠ "unchanged" →
      r = Json.obj [("success", Json.bool true),
          ("result", Json.obj [("status", Json.str st)])] →
      update_dns parse resp ip =
        (.ok r,
         [("INFO", "Updating DNS record for " ++ DOMAIN ++ " to " ++ ip.pyStr ++ "..."),
          ("INFO", "DNS record updated successfully to " ++ ip.pyStr)])) := by
  constructor
  · intro hr
    subst hr
    have hl : update_dns_success_logs
        (Json.obj [("success", Json.bool true),
          ("result", Json.obj [("status", Json.str "unchanged")])]) ip =
        .ok [("INFO", "DNS record is already up-to-date (" ++ ip.pyStr ++ ")")] := rfl
    simp [update_dns, h, hl]
  · intro st hst hr
    subst hr
    have hb : (st == "unchanged") = false := by
      simpa using hst
    have hl : update_dns_success_logs
        (Json.obj [("success", Json.bool true),
          ("result", Json.obj [("status", Json.str st)])]) ip =
        if (st == "unchanged") = true then
          Except.ok [("INFO", "DNS record is already up-to-date (" ++ ip.pyStr ++ ")")]
        else
          Except.ok [("INFO", "DNS record updated successfully to " ++ ip.pyStr)] := rfl
    rw [hb] at hl
    simp only [Bool.false_eq_true, if_false] at hl
    simp [update_dns, h, hl]

/-- Witness for C7: the `"unchanged"` and `"ok"` response shapes. -/
theorem update_dns_success_shapes_witness :
    update_dns (fun t => if t = "u1" then some (Json.obj [("success", Json.bool true),
        ("result", Json.obj [("status", Json.str "unchanged")])]) else none)
      (fun _ => UrlOpenResult.ok 200 [] "u1") (Json.str "1.2.3.4") =
      (.ok (Json.obj [("success", Json.bool true),
          ("result", Json.obj [("status", Json.str "unchanged")])]),
       [("INFO", "Updating DNS record for " ++ DOMAIN ++ " to 1.2.3.4..."),
        ("INFO", "DNS record is already up-to-date (1.2.3.4)")]) ∧
    update_dns (fun t => if t = "u2" then some (Json.obj [("success", Json.bool true),
        ("result", Json.obj [("status", Json.str "ok")])]) else none)
      (fun _ => UrlOpenResult.ok 200 [] "u2") (Json.str "1.2.3.4") =
      (.ok (Json.obj [("success", Json.bool true),
          ("result", Json.obj [("status", Json.str "ok")])]),
       [("INFO", "Updating DNS record for " ++ DOMAIN ++ " to 1.2.3.4..."),
        ("INFO", "DNS record updated successfully to 1.2.3.4")]) := by
  constructor
  · exact (update_dns_success_shapes
      (fun t => if t = "u1" then some (Json.obj [("success", Json.bool true),
          ("result", Json.obj [("status", Json.str "unchanged")])]) else none)
      (fun _ => UrlOpenResult.ok 200 [] "u1") (Json.str "1.2.3.4") _
      (by rw [make_request, make_request_loop_nonredirect _ _ _ _ _ _ (by decide)]; rfl)).1
      rfl
  · exact (update_dns_success_shapes
      (fun t => if t = "u2" then some (Json.obj [("success", Json.bool true),
          ("result", Json.obj [("status", Json.str "ok")])]) else none)
      (fun _ => UrlOpenResult.ok 200 [] "u2") (Json.str "1.2.3.4") _
      (by rw [make_request, make_request_loop_nonredirect _ _ _ _ _ _ (by decide)]; rfl)).2
      "ok" (by decide) rfl

/-- C1: `check_and_update_ip` never propagates a failure: whenever the cycle
body (`get_current_ip` then `update_dns`) raises an error, the cycle catches
it, logs "Update cycle failed" and the "Will retry" notice as its final log
lines, and returns normally. -/
theorem cycle_absorbs_failures (parse : String → Option Json)
    (ipResp dnsResp : Nat → UrlOpenResult) (e : ClientError)
    (h : cycle_error parse ipResp dnsResp = some e) :
    (check_and_update_ip parse ipResp dnsResp).1 = .ok () ∧
    ∃ pre, (check_and_update_ip parse ipResp dnsResp).2 =
      pre ++ [("ERROR", "Update cycle failed: " ++ e.msg), will_retry_log] := by
  rcases hg : get_current_ip parse ipResp with ⟨r1, lgs1⟩
  cases r1 with
  | error e1 =>
      rw [cycle_error, hg] at h
      simp only [Option.some.injEq] at h
      subst h
      refine ⟨by simp [check_and_update_ip, hg], lgs1, by simp [check_and_update_ip, hg]⟩
  | ok ip =>
      rcases hu : update_dns parse dnsResp ip with ⟨r2, lgs2⟩
      cases r2 with
      | error e2 =>
          rw [cycle_error, hg] at h
          simp only at h
          rw [hu] at h
          simp only [Option.some.injEq] at h
          subst h
          exact ⟨by simp [check_and_update_ip, hg, hu], lgs1 ++ lgs2,
            by simp [check_and_update_ip, hg, hu]⟩
      | ok v =>
          rw [cycle_error, hg] at h
          simp only at h
          rw [hu] at h
          simp at h

/-- Witness for C1: a cycle whose IP detection fails on a transport error is
absorbed, logging the failure and retry notices. -/
theorem cycle_absorbs_failures_witness :
    (check_and_update_ip (fun _ => none) (fun _ => UrlOpenResult.urlError "boom")
      (fun _ => UrlOpenResult.urlError "x")).1 = .ok () ∧
    ∃ pre, (check_and_update_ip (fun _ => none) (fun _ => UrlOpenResult.urlError "boom")
      (fun _ => UrlOpenResult.urlError "x")).2 =
      pre ++ [("ERROR", "Update cycle failed: " ++ failed_to_detect_ip_error.msg),
              will_retry_log] := by
  exact cycle_absorbs_failures (fun _ => none) (fun _ => UrlOpenResult.urlError "boom")
    (fun _ => UrlOpenResult.urlError "x") failed_to_detect_ip_error
    (by
      have hg : (get_current_ip (fun _ => none) (fun _ => UrlOpenResult.urlError "boom")).1
          = .error failed_to_detect_ip_error := by
        rw [get_current_ip, make_request,
          make_request_loop_nonredirect _ _ _ _ _ _ (by decide)]
        rfl
      simp [cycle_error, hg])

/-- C8: one iteration of the main loop, as a step function over events,
never exits from a cycle — whether the cycle succeeded or absorbed an
error, the process sleeps exactly `UPDATE_INTERVAL` and continues; the only
exit is the termination signal, with exit code 0. -/
theorem main_loop_never_exits_from_cycle :
    (∀ env, main_loop_step (LoopEvent.cycle env) =
      ⟨some UPDATE_INTERVAL, none⟩) ∧
    main_loop_step LoopEvent.signal = ⟨none, some 0⟩ := by
  refine ⟨fun env => ?_, rfl⟩
  cases h : (check_and_update_ip env.parse env.ipResp env.dnsResp).1 <;>
    simp [main_loop_step, h]

end DDNS
